import Mathlib

/-
Verification development for the flux-mcp crate: a server exposing a
refinement-type verifier (Flux) as callable operations.

Embedded components:
  * diagnostics.rs : record shapes, parse_spans / parse_message /
    parse_target, retain_only_syntax_errors.
  * flux_runner.rs : flux_command, parse_flux_output, parse_lemma,
    parse_flux_lemmas, verify_repository, verify_package, get_lemmas.
  * flux_mcp.rs    : the four tool operations.

Modelling conventions:
  * JSON values (serde_json::Value) are modelled by the inductive `Json`;
    object keys are assumed unique (serde collapses duplicates at parse
    time).  Numbers carry an `Int`, matching the i64 uses in the source.
  * One line of subprocess output is modelled by the result of running
    serde_json::from_str on it: `some j` for Ok(j), `none` for Err —
    textual JSON parsing itself is external library code.
  * The subprocess world is modelled as a function from the built
    `Command` to a `ProcessBehavior` describing spawn success, stdout
    capture, the sequence of line reads and the wait outcome.
-/

/-! ## JSON value model -/

inductive Json where
  | null : Json
  | bool (b : Bool) : Json
  | num (n : Int) : Json
  | str (s : String) : Json
  | arr (elems : List Json) : Json
  | obj (fields : List (String × Json)) : Json

/-- Models assoc-list lookup in a serde_json object (unique keys). -/
def lookupField : List (String × Json) → String → Option Json
  | [], _ => none
  | (k, v) :: rest, key => if k = key then some v else lookupField rest key

/-- Models serde_json Value::get(key): Some value on objects holding the key, None otherwise. -/
def Json.get (j : Json) (key : String) : Option Json :=
  match j with
  | .obj fields => lookupField fields key
  | _ => none

/-- Models Value::as_str. -/
def Json.asStr : Json → Option String
  | .str s => some s
  | _ => none

/-- Models Value::as_bool. -/
def Json.asBool : Json → Option Bool
  | .bool b => some b
  | _ => none

/-- Models Value::as_i64; the embedding carries only integer numbers. -/
def Json.asI64 : Json → Option Int
  | .num n => some n
  | _ => none

/-- Models Value::as_array. -/
def Json.asArray : Json → Option (List Json)
  | .arr elems => some elems
  | _ => none

/-- Escapes one character for compact JSON string rendering. -/
def escapeChar (c : Char) : String :=
  if c = '"' then "\\\""
  else if c = '\\' then "\\\\"
  else if c = '\n' then "\\n"
  else if c = '\t' then "\\t"
  else if c = '\r' then "\\r"
  else String.singleton c

/-- Models the compact JSON rendering of a string literal. -/
def Json.renderString (s : String) : String :=
  "\"" ++ String.join (s.toList.map escapeChar) ++ "\""

mutual

/-- Models serde_json compact Display of a Value (Value::to_string). -/
def Json.render : Json → String
  | Json.null => "null"
  | Json.bool true => "true"
  | Json.bool false => "false"
  | Json.num n => toString n
  | Json.str s => Json.renderString s
  | Json.arr elems => "[" ++ Json.renderElems elems ++ "]"
  | Json.obj fields => "\x7b" ++ Json.renderFields fields ++ "\x7d"

/-- Comma-separated rendering of array elements. -/
def Json.renderElems : List Json → String
  | [] => ""
  | [x] => Json.render x
  | x :: y :: rest => Json.render x ++ "," ++ Json.renderElems (y :: rest)

/-- Comma-separated rendering of object fields. -/
def Json.renderFields : List (String × Json) → String
  | [] => ""
  | [(k, v)] => Json.renderString k ++ ":" ++ Json.render v
  | (k, v) :: y :: rest =>
    Json.renderString k ++ ":" ++ Json.render v ++ "," ++ Json.renderFields (y :: rest)

end

/-! ## Diagnostic record shapes (diagnostics.rs) -/

structure DiagnosticTarget where
  name : String
  kind : Option (List String)
deriving DecidableEq, Repr

structure DiagnosticSpan where
  file_name : String
  line_start : Int
  column_start : Int
  line_end : Int
  column_end : Int
  is_primary : Bool
deriving DecidableEq, Repr

structure DiagnosticMessage where
  level : String
  message : String
  code : Option String
  rendered : Option String
  spans : List DiagnosticSpan
deriving DecidableEq, Repr

structure Diagnostic where
  message : DiagnosticMessage
  package_id : Option String
  target : Option DiagnosticTarget
deriving DecidableEq, Repr

/-! ## Parsers (diagnostics.rs) -/

/-- One iteration of the parse_spans loop body: every key lookup uses the
question-mark operator (must exist), while the numeric and boolean values
default (unwrap_or 0 / unwrap_or true) when the key is present. -/
def parseSpanOne (span : Json) : Option DiagnosticSpan := do
  let fileNameJ ← span.get "file_name"
  let file_name ← fileNameJ.asStr
  let lineStartJ ← span.get "line_start"
  let line_start := lineStartJ.asI64.getD 0
  let columnStartJ ← span.get "column_start"
  let column_start := columnStartJ.asI64.getD 0
  let lineEndJ ← span.get "line_end"
  let line_end := lineEndJ.asI64.getD 0
  let columnEndJ ← span.get "column_end"
  let column_end := columnEndJ.asI64.getD 0
  let isPrimaryJ ← span.get "is_primary"
  let is_primary := isPrimaryJ.asBool.getD true
  pure ⟨file_name, line_start, column_start, line_end, column_end, is_primary⟩

/-- Models the parse_spans loop over the array: the first failing span
aborts the whole parse (the Rust loop returns None via the question-mark
operator inside the for loop). -/
def parse_spans_list : List Json → Option (List DiagnosticSpan)
  | [] => some []
  | s :: rest => do
    let d ← parseSpanOne s
    let ds ← parse_spans_list rest
    pure (d :: ds)

/-- Models diagnostics.rs parse_spans. -/
def parse_spans (spans : Json) : Option (List DiagnosticSpan) := do
  let elems ← spans.asArray
  parse_spans_list elems

/-- Models diagnostics.rs parse_message: level and message text are
mandatory (question mark), code and rendered are optional, and a failing
spans extraction falls back to the empty list (and_then + unwrap_or). -/
def parse_message (message : Json) : Option DiagnosticMessage := do
  let levelJ ← message.get "level"
  let level ← levelJ.asStr
  let code := (message.get "code").bind Json.asStr
  let rendered := (message.get "rendered").bind Json.asStr
  let spans := ((message.get "spans").bind parse_spans).getD []
  let messageTextJ ← message.get "message"
  let messageText ← messageTextJ.asStr
  pure ⟨level, messageText, code, rendered, spans⟩

/-- Models the element loop of parse_target over the kind array: any
non-string element aborts the whole target parse. -/
def parse_kinds : List Json → Option (List String)
  | [] => some []
  | k :: rest => do
    let s ← k.asStr
    let ss ← parse_kinds rest
    pure (s :: ss)

/-- Models diagnostics.rs parse_target. -/
def parse_target (target : Json) : Option DiagnosticTarget := do
  let nameJ ← target.get "name"
  let name ← nameJ.asStr
  match target.get "kind" with
  | some kind => do
    let elems ← kind.asArray
    let kinds ← parse_kinds elems
    pure ⟨name, some kinds⟩
  | none => pure ⟨name, none⟩

/-- The fixed catalogue of verifier-internal failure phrases
(flux_error_markers in diagnostics.rs), in source order. -/
def flux_error_markers : List String := [
  "error jumping to join point",
  "assignment might be unsafe",
  "call to function that may panic",
  "refinement type error",
  "possible division by zero",
  "possible reminder with a divisor of zero",
  "assertion might fail",
  "parameter inference error at function call",
  "type invariant may not hold (when place is folded)",
  "cannot prove this code safe",
  "arithmetic operation may overflow",
  "arithmetic operation may underflow",
  "unsupported type in function call",
  "invariant cannot be proven",
  "associated refinement"
]

/-- Substring search over character lists: pat occurs at some position. -/
def containsSub (pat : List Char) : List Char → Bool
  | [] => pat.isEmpty
  | c :: cs => pat.isPrefixOf (c :: cs) || containsSub pat cs

/-- Models Rust str::contains with a string pattern (substring containment). -/
def strContains (s pat : String) : Bool :=
  containsSub pat.toList s.toList

/-- Models diagnostics.rs retain_only_syntax_errors: keep level == "error"
diagnostics whose text contains none of the catalogue phrases. -/
def retain_only_syntax_errors (diagnostics : List Diagnostic) : List Diagnostic :=
  diagnostics.filter fun diag =>
    diag.message.level == "error"
      && !(flux_error_markers.any fun marker => strContains diag.message.message marker)

/-! ## Runner records (flux_runner.rs) -/

structure VerificationReport where
  success : Bool
  diagnostics : List Diagnostic
deriving DecidableEq, Repr

structure Lemma where
  name : String
  file_name : String
  start_line : Int
  start_col : Int
  end_line : Int
  end_col : Int
deriving DecidableEq, Repr

/-- Models the std::process::Command built by flux_command: program, extra
environment entries, argument list, working directory and the two
Stdio::piped settings. -/
structure Command where
  program : String
  env : List (String × String)
  args : List String
  current_dir : String
  stdout_piped : Bool
  stderr_piped : Bool
deriving DecidableEq, Repr

/-- Behavior of the external world for one spawned subprocess: whether
spawn succeeds, whether stdout could be captured, the sequence of line
reads delivered by BufReader::lines (each an I/O error or a line,
abstracted to its per-line serde parse result), and the wait outcome
(an error or the exit-status success flag). -/
structure ProcessBehavior where
  spawnOk : Bool
  stdoutOk : Bool
  lineReads : List (Except String (Option Json))
  waitResult : Except String Bool

namespace FluxRunner

/-- Models FluxRunner::flux_command. -/
def flux_command (repo_root : String) (packages : Option (List String))
    (flux_flags : Option (List String)) : Command :=
  let env := match flux_flags with
    | some fs => [("FLUXFLAGS", String.intercalate " " fs)]
    | none => []
  let pkgArgs := match packages with
    | some ps => ps.flatMap fun package => ["-p", package]
    | none => []
  { program := "cargo"
    env := env
    args := ["flux"] ++ pkgArgs ++ ["--message-format=json"]
    current_dir := repo_root
    stdout_piped := true
    stderr_piped := true }

/-- Processing of one output line by the parse_flux_output loop: skip
unparseable lines, lines without a reason field, and lines whose reason is
not the compiler-message sentinel; otherwise extract the message (dropping
the line when that fails) together with the optional target and the
package_id rendered back to text. -/
def parseLine (l : Option Json) : Option Diagnostic :=
  match l with
  | none => none
  | some j =>
    match j.get "reason" with
    | none => none
    | some reason =>
      if reason.asStr = some "compiler-message" then
        match (j.get "message").bind parse_message with
        | none => none
        | some message =>
          some ⟨message, (j.get "package_id").map Json.render, (j.get "target").bind parse_target⟩
      else none

/-- Models FluxRunner::parse_flux_output over the line sequence. -/
def parse_flux_output (lines : List (Option Json)) : List Diagnostic :=
  lines.filterMap parseLine

/-- Models FluxRunner::parse_lemma: all six fields mandatory, integers not
defaulted. -/
def parse_lemma (message : Json) : Option Lemma := do
  let nameJ ← message.get "lemma_name"
  let name ← nameJ.asStr
  let fileNameJ ← message.get "file_name"
  let file_name ← fileNameJ.asStr
  let startLineJ ← message.get "start_line"
  let start_line ← startLineJ.asI64
  let endLineJ ← message.get "end_line"
  let end_line ← endLineJ.asI64
  let startColJ ← message.get "start_col"
  let start_col ← startColJ.asI64
  let endColJ ← message.get "end_col"
  let end_col ← endColJ.asI64
  pure ⟨name, file_name, start_line, start_col, end_line, end_col⟩

/-- Processing of one output line by the parse_flux_lemmas loop. -/
def parseLemmaLine (l : Option Json) : Option Lemma :=
  match l with
  | none => none
  | some j =>
    match j.get "reason" with
    | none => none
    | some reason =>
      if reason.asStr = some "compiler-message" then
        (j.get "message").bind parse_lemma
      else none

/-- Models FluxRunner::parse_flux_lemmas over the line sequence. -/
def parse_flux_lemmas (lines : List (Option Json)) : List Lemma :=
  lines.filterMap parseLemmaLine

/-- Models the stdout draining loop: each Ok line is accumulated, the
first Err aborts the call with the formatted read-failure message (the
prefix differs between verify and lemma operations in the source). -/
def drainStdout (readFailPrefix : String) :
    List (Except String (Option Json)) → Except String (List (Option Json))
  | [] => Except.ok []
  | Except.error e :: _ => Except.error (readFailPrefix ++ e)
  | Except.ok l :: rest =>
    match drainStdout readFailPrefix rest with
    | Except.error e => Except.error e
    | Except.ok ls => Except.ok (l :: ls)

/-- Shared spawn / capture / stream / wait pipeline of verify_repository,
verify_package and get_lemmas (their bodies are verbatim duplicates in the
source apart from the built command and the read-failure message). -/
def run_flux_process (readFailPrefix : String) (proc : ProcessBehavior) :
    Except String (Bool × List (Option Json)) :=
  if proc.spawnOk = false then Except.error "Failed to run Flux process"
  else if proc.stdoutOk = false then Except.error "Failed to capture stdout from Flux process"
  else
    match drainStdout readFailPrefix proc.lineReads with
    | Except.error e => Except.error e
    | Except.ok lines =>
      match proc.waitResult with
      | Except.error e => Except.error ("Process wait failed: " ++ e)
      | Except.ok status => Except.ok (status, lines)

/-- Models FluxRunner::verify_repository: run the no-filter command, then
report success from the exit status and the parsed diagnostics. -/
def verify_repository (world : Command → ProcessBehavior) (repo_path : String) :
    Except String VerificationReport :=
  match run_flux_process "Failed to read output: " (world (flux_command repo_path none none)) with
  | Except.error e => Except.error e
  | Except.ok (status, lines) => Except.ok ⟨status, parse_flux_output lines⟩

/-- Models FluxRunner::verify_package: identical pipeline with the package
filter forwarded to flux_command. -/
def verify_package (world : Command → ProcessBehavior) (repo_path : String)
    (packages : Option (List String)) : Except String VerificationReport :=
  match run_flux_process "Failed to read output: " (world (flux_command repo_path packages none)) with
  | Except.error e => Except.error e
  | Except.ok (status, lines) => Except.ok ⟨status, parse_flux_output lines⟩

/-- Models FluxRunner::get_lemmas: the dump-lemmas flag is passed through
the environment, the exit status is ignored, and the source's read-failure
message carries a typo ("ouptut"). -/
def get_lemmas (world : Command → ProcessBehavior) (repo_path : String) :
    Except String (List Lemma) :=
  match run_flux_process "Failed to read ouptut: " (world (flux_command repo_path none (some ["-Fdump-lemmas"]))) with
  | Except.error e => Except.error e
  | Except.ok (_, lines) => Except.ok (parse_flux_lemmas lines)

end FluxRunner

/-! ## Tool façade (flux_mcp.rs) -/

/-- Models rmcp ErrorData as produced by the façade (invalid_request). -/
inductive McpError where
  | invalidRequest (message : String) : McpError
deriving DecidableEq, Repr

/-- Models serialisation of a Diagnostic back to JSON (derived serde
Serialize: declared field order, None as null). -/
def diagnosticToJson (d : Diagnostic) : Json :=
  Json.obj [
    ("message", Json.obj [
      ("level", Json.str d.message.level),
      ("message", Json.str d.message.message),
      ("code", match d.message.code with | some c => Json.str c | none => Json.null),
      ("rendered", match d.message.rendered with | some r => Json.str r | none => Json.null),
      ("spans", Json.arr (d.message.spans.map fun s => Json.obj [
        ("file_name", Json.str s.file_name),
        ("line_start", Json.num s.line_start),
        ("column_start", Json.num s.column_start),
        ("line_end", Json.num s.line_end),
        ("column_end", Json.num s.column_end),
        ("is_primary", Json.bool s.is_primary)]))]),
    ("package_id", match d.package_id with | some p => Json.str p | none => Json.null),
    ("target", match d.target with
      | some t => Json.obj [
          ("name", Json.str t.name),
          ("kind", match t.kind with
            | some ks => Json.arr (ks.map Json.str)
            | none => Json.null)]
      | none => Json.null)]

/-- Models serde_json::to_string applied to one Diagnostic. -/
def serializeDiagnostic (d : Diagnostic) : String :=
  (diagnosticToJson d).render

/-- Models serialisation of a Lemma back to JSON text. -/
def serializeLemma (l : Lemma) : String :=
  (Json.obj [
    ("name", Json.str l.name),
    ("file_name", Json.str l.file_name),
    ("start_line", Json.num l.start_line),
    ("start_col", Json.num l.start_col),
    ("end_line", Json.num l.end_line),
    ("end_col", Json.num l.end_col)]).render

namespace FluxMcp

/-- Models FluxMcp::verify_repository: serialized diagnostics followed by
the literal summary item, or an invalid-request error wrapping the runner
failure text. -/
def verify_repository (world : Command → ProcessBehavior) (repo_path : String) :
    Except McpError (List String) :=
  match FluxRunner.verify_repository world repo_path with
  | Except.ok report =>
    let result_text := if report.success then "Verification Succeeded" else "Verification Failed"
    Except.ok (report.diagnostics.map serializeDiagnostic ++ [result_text])
  | Except.error err => Except.error (McpError.invalidRequest ("Verification failed " ++ err))

/-- Models FluxMcp::verify_packages: same rendering over verify_package
with the caller-supplied package list wrapped in Some. -/
def verify_packages (world : Command → ProcessBehavior) (repo_path : String)
    (packages : List String) : Except McpError (List String) :=
  match FluxRunner.verify_package world repo_path (some packages) with
  | Except.ok report =>
    let result_text := if report.success then "Verification Succeeded" else "Verification Failed"
    Except.ok (report.diagnostics.map serializeDiagnostic ++ [result_text])
  | Except.error err => Except.error (McpError.invalidRequest ("Verification failed " ++ err))

/-- Models FluxMcp::get_syntax_errors: verify the repository, filter with
the classifier, render the survivors and append the "Found N syntax
errors" summary item. -/
def get_syntax_errors (world : Command → ProcessBehavior) (repo_path : String) :
    Except McpError (List String) :=
  match FluxRunner.verify_repository world repo_path with
  | Except.ok report =>
    let syntax_errors := retain_only_syntax_errors report.diagnostics
    let result_text := "Found " ++ toString syntax_errors.length ++ " syntax errors"
    Except.ok (syntax_errors.map serializeDiagnostic ++ [result_text])
  | Except.error err => Except.error (McpError.invalidRequest ("Verification failed " ++ err))

/-- Models FluxMcp::get_lemmas: serialized lemmas, no summary item. -/
def get_lemmas (world : Command → ProcessBehavior) (repo_path : String) :
    Except McpError (List String) :=
  match FluxRunner.get_lemmas world repo_path with
  | Except.ok lemmas => Except.ok (lemmas.map serializeLemma)
  | Except.error err => Except.error (McpError.invalidRequest ("Failed to fetch lemmas " ++ err))

end FluxMcp

/-! ## Concrete sample values used in witnesses and counterexamples -/

/-- The message object of a well-formed error-level diagnostic line. -/
def sampleErrorMessage : Json := Json.obj [
  ("level", Json.str "error"),
  ("message", Json.str "refinement type error in bar"),
  ("spans", Json.arr [])]

/-- A well-formed compiler-message line carrying one error-level diagnostic. -/
def sampleErrorLine : Json := Json.obj [
  ("reason", Json.str "compiler-message"),
  ("message", sampleErrorMessage)]

/-- The diagnostic parsed from sampleErrorLine. -/
def sampleErrorDiag : Diagnostic :=
  ⟨⟨"error", "refinement type error in bar", none, none, []⟩, none, none⟩

/-- A minimal diagnostic with the given level and message text. -/
def mkDiag (lvl msg : String) : Diagnostic :=
  ⟨⟨lvl, msg, none, none, []⟩, none, none⟩

/-- A world whose subprocess exits successfully after emitting one
error-level diagnostic line. -/
def oneErrorExitOkWorld : Command → ProcessBehavior :=
  fun _ => ⟨true, true, [Except.ok (some sampleErrorLine)], Except.ok true⟩

/-- A world whose subprocess fails to spawn. -/
def spawnFailWorld : Command → ProcessBehavior :=
  fun _ => ⟨false, true, [], Except.ok true⟩

/-- A message object with a malformed (non-array) spans value but
well-formed level and text. -/
def c4_message : Json := Json.obj [
  ("level", Json.str "error"),
  ("message", Json.str "mismatched types"),
  ("spans", Json.num 5)]

/-- A compiler-message line carrying the malformed-spans message above. -/
def c4_line : Json := Json.obj [
  ("reason", Json.str "compiler-message"),
  ("message", c4_message)]

/-- The diagnostic the parser produces from c4_line. -/
def c4_diag : Diagnostic := ⟨⟨"error", "mismatched types", none, none, []⟩, none, none⟩

/-- A span whose is_primary key is present but bound to a non-boolean. -/
def c5_span_nonbool : Json := Json.obj [
  ("file_name", Json.str "a.rs"),
  ("line_start", Json.num 1),
  ("column_start", Json.num 2),
  ("line_end", Json.num 3),
  ("column_end", Json.num 4),
  ("is_primary", Json.str "yes")]

/-- A span missing the is_primary key entirely. -/
def c5_span_missing : Json := Json.obj [
  ("file_name", Json.str "b.rs"),
  ("line_start", Json.num 1),
  ("column_start", Json.num 1),
  ("line_end", Json.num 1),
  ("column_end", Json.num 1)]

/-- A target object whose kind key holds a non-array value. -/
def c6_target_json : Json := Json.obj [
  ("name", Json.str "demo"),
  ("kind", Json.num 3)]

/-- A compiler-message line carrying the malformed target above. -/
def c6_line : Json := Json.obj [
  ("reason", Json.str "compiler-message"),
  ("message", Json.obj [
    ("level", Json.str "error"),
    ("message", Json.str "boom")]),
  ("target", c6_target_json)]

/-- A message object lacking the level field. -/
def c7_no_level_message : Json := Json.obj [
  ("message", Json.str "text without level")]

/-- A compiler-message line whose message object lacks the level field. -/
def c7_no_level_line : Json := Json.obj [
  ("reason", Json.str "compiler-message"),
  ("message", c7_no_level_message)]

/-- The diagnostic parsed from c6_line: target absent, not partially filled. -/
def c6_diag : Diagnostic := ⟨⟨"error", "boom", none, none, []⟩, none, none⟩

/-- A line the parsers ignore: unparseable, or JSON without a reason field,
or with a reason that is not the compiler-message string. -/
def irrelevant_line (l : Option Json) : Prop :=
  l = none ∨ ∃ j, l = some j ∧
    (j.get "reason" = none ∨
      ∀ r, j.get "reason" = some r → ¬ r.asStr = some "compiler-message")

/-! ## Helper lemmas -/

theorem drainStdout_map_ok (pfx : String) (lines : List (Option Json)) :
    FluxRunner.drainStdout pfx (lines.map Except.ok) = Except.ok lines := by
  induction lines with
  | nil => rfl
  | cons l rest ih => simp [FluxRunner.drainStdout, ih]

theorem drainStdout_error_mem (pfx : String)
    (reads : List (Except String (Option Json))) (e : String)
    (h : FluxRunner.drainStdout pfx reads = Except.error e) :
    ∃ msg, Except.error msg ∈ reads := by
  induction reads with
  | nil => simp [FluxRunner.drainStdout] at h
  | cons r rest ih =>
    cases r with
    | error msg => exact ⟨msg, List.mem_cons_self _ _⟩
    | ok l =>
      cases hd : FluxRunner.drainStdout pfx rest with
      | error e2 =>
        rw [FluxRunner.drainStdout, hd] at h
        injection h with h2
        subst h2
        obtain ⟨msg, hm⟩ := ih hd
        exact ⟨msg, List.mem_cons_of_mem _ hm⟩
      | ok ls =>
        rw [FluxRunner.drainStdout, hd] at h
        cases h

theorem drainStdout_ok_of_all_ok (pfx : String)
    (reads : List (Except String (Option Json)))
    (h : ∀ r ∈ reads, ∃ l, r = Except.ok l) :
    ∃ lines, FluxRunner.drainStdout pfx reads = Except.ok lines := by
  induction reads with
  | nil => exact ⟨[], rfl⟩
  | cons r rest ih =>
    obtain ⟨l, rfl⟩ := h r (List.mem_cons_self _ _)
    obtain ⟨lines, hl⟩ := ih fun x hx => h x (List.mem_cons_of_mem _ hx)
    exact ⟨l :: lines, by rw [FluxRunner.drainStdout, hl]⟩

theorem run_flux_process_all_ok (pfx : String) (lines : List (Option Json)) (b : Bool) :
    FluxRunner.run_flux_process pfx ⟨true, true, lines.map Except.ok, Except.ok b⟩
      = Except.ok (b, lines) := by
  simp [FluxRunner.run_flux_process, drainStdout_map_ok]

theorem parse_flux_output_append (xs ys : List (Option Json)) :
    FluxRunner.parse_flux_output (xs ++ ys)
      = FluxRunner.parse_flux_output xs ++ FluxRunner.parse_flux_output ys := by
  simp [FluxRunner.parse_flux_output, List.filterMap_append]

theorem parse_flux_lemmas_append (xs ys : List (Option Json)) :
    FluxRunner.parse_flux_lemmas (xs ++ ys)
      = FluxRunner.parse_flux_lemmas xs ++ FluxRunner.parse_flux_lemmas ys := by
  simp [FluxRunner.parse_flux_lemmas, List.filterMap_append]

theorem parseLine_none_of_irrelevant (l : Option Json) (h : irrelevant_line l) :
    FluxRunner.parseLine l = none := by
  rcases h with rfl | ⟨j, rfl, hj⟩
  · rfl
  · rcases hj with hr | hr
    · simp [FluxRunner.parseLine, hr]
    · cases hg : j.get "reason" with
      | none => simp [FluxRunner.parseLine, hg]
      | some r => simp [FluxRunner.parseLine, hg, hr r hg]

theorem parseLemmaLine_none_of_irrelevant (l : Option Json) (h : irrelevant_line l) :
    FluxRunner.parseLemmaLine l = none := by
  rcases h with rfl | ⟨j, rfl, hj⟩
  · rfl
  · rcases hj with hr | hr
    · simp [FluxRunner.parseLemmaLine, hr]
    · cases hg : j.get "reason" with
      | none => simp [FluxRunner.parseLemmaLine, hg]
      | some r => simp [FluxRunner.parseLemmaLine, hg, hr r hg]

theorem parse_message_none_of_missing (m : Json)
    (h : (m.get "level").bind Json.asStr = none
      ∨ (m.get "message").bind Json.asStr = none) :
    parse_message m = none := by
  rcases h with h | h
  · cases hg : m.get "level" with
    | none => simp [parse_message, hg]
    | some lv =>
      rw [hg] at h
      simp only [Option.some_bind] at h
      simp [parse_message, hg, h]
  · cases hl : m.get "level" with
    | none => simp [parse_message, hl]
    | some lv =>
      cases hs : lv.asStr with
      | none => simp [parse_message, hl, hs]
      | some level =>
        cases hm : m.get "message" with
        | none => simp [parse_message, hl, hs, hm]
        | some tJ =>
          rw [hm] at h
          simp only [Option.some_bind] at h
          simp [parse_message, hl, hs, hm, h]

theorem parse_kinds_none_of_mem (arr : List Json) (k : Json) (hk : k ∈ arr)
    (hs : k.asStr = none) : parse_kinds arr = none := by
  induction arr with
  | nil => cases hk
  | cons a rest ih =>
    rcases List.mem_cons.mp hk with rfl | hmem
    · simp [parse_kinds, hs]
    · cases ha : a.asStr with
      | none => simp [parse_kinds, ha]
      | some s => simp [parse_kinds, ha, ih hmem]

theorem parse_spans_list_none_of_mem (arr : List Json) (s : Json) (hs : s ∈ arr)
    (hnone : parseSpanOne s = none) : parse_spans_list arr = none := by
  induction arr with
  | nil => cases hs
  | cons a rest ih =>
    rcases List.mem_cons.mp hs with rfl | hmem
    · simp [parse_spans_list, hnone]
    · cases ha : parseSpanOne a with
      | none => simp [parse_spans_list, ha]
      | some d => simp [parse_spans_list, ha, ih hmem]

theorem parseSpanOne_none_of_no_primary (s : Json) (h : s.get "is_primary" = none) :
    parseSpanOne s = none := by
  cases h1 : s.get "file_name" with
  | none => simp [parseSpanOne, h1]
  | some fnJ =>
    cases h2 : fnJ.asStr with
    | none => simp [parseSpanOne, h1, h2]
    | some fn =>
      cases h3 : s.get "line_start" with
      | none => simp [parseSpanOne, h1, h2, h3]
      | some lsJ =>
        cases h4 : s.get "column_start" with
        | none => simp [parseSpanOne, h1, h2, h3, h4]
        | some csJ =>
          cases h5 : s.get "line_end" with
          | none => simp [parseSpanOne, h1, h2, h3, h4, h5]
          | some leJ =>
            cases h6 : s.get "column_end" with
            | none => simp [parseSpanOne, h1, h2, h3, h4, h5, h6]
            | some ceJ => simp [parseSpanOne, h1, h2, h3, h4, h5, h6, h]

theorem parse_target_none_of_bad_kind (t v : Json) (hv : t.get "kind" = some v)
    (hbad : v.asArray = none
      ∨ ∃ arr, v.asArray = some arr ∧ ∃ k ∈ arr, k.asStr = none) :
    parse_target t = none := by
  cases hn : t.get "name" with
  | none => simp [parse_target, hn]
  | some nJ =>
    cases hs : nJ.asStr with
    | none => simp [parse_target, hn, hs]
    | some name =>
      rcases hbad with hb | ⟨arr, ha, k, hk, hks⟩
      · simp [parse_target, hn, hs, hv, hb]
      · simp [parse_target, hn, hs, hv, ha, parse_kinds_none_of_mem arr k hk hks]

theorem parseLine_none_of_bad_message (j m : Json) (hm : j.get "message" = some m)
    (hpm : parse_message m = none) : FluxRunner.parseLine (some j) = none := by
  cases hr : j.get "reason" with
  | none => simp [FluxRunner.parseLine, hr]
  | some r =>
    by_cases hc : r.asStr = some "compiler-message"
    · simp [FluxRunner.parseLine, hr, hc, hm, hpm]
    · simp [FluxRunner.parseLine, hr, hc]

theorem parseLine_some_of_good (j m : Json) (hm : j.get "message" = some m)
    (hr : ∃ r, j.get "reason" = some r ∧ r.asStr = some "compiler-message")
    (dm : DiagnosticMessage) (hpm : parse_message m = some dm) :
    FluxRunner.parseLine (some j)
      = some ⟨dm, (j.get "package_id").map Json.render,
          (j.get "target").bind parse_target⟩ := by
  obtain ⟨r, hr1, hr2⟩ := hr
  simp [FluxRunner.parseLine, hr1, hr2, hm, hpm]

theorem parseLine_target (j : Json) (d : Diagnostic)
    (h : FluxRunner.parseLine (some j) = some d) :
    d.target = (j.get "target").bind parse_target := by
  cases hr : j.get "reason" with
  | none => simp [FluxRunner.parseLine, hr] at h
  | some r =>
    by_cases hc : r.asStr = some "compiler-message"
    · cases hm : (j.get "message").bind parse_message with
      | none => simp [FluxRunner.parseLine, hr, hc, hm] at h
      | some msg =>
        simp [FluxRunner.parseLine, hr, hc, hm] at h
        subst h
        rfl
    · simp [FluxRunner.parseLine, hr, hc] at h

theorem parseSpanOne_is_primary (s : Json) (d : DiagnosticSpan)
    (h : parseSpanOne s = some d) :
    ∃ v, s.get "is_primary" = some v ∧ d.is_primary = v.asBool.getD true := by
  cases h1 : s.get "file_name" with
  | none => simp [parseSpanOne, h1] at h
  | some fnJ =>
    cases h2 : fnJ.asStr with
    | none => simp [parseSpanOne, h1, h2] at h
    | some fn =>
      cases h3 : s.get "line_start" with
      | none => simp [parseSpanOne, h1, h2, h3] at h
      | some lsJ =>
        cases h4 : s.get "column_start" with
        | none => simp [parseSpanOne, h1, h2, h3, h4] at h
        | some csJ =>
          cases h5 : s.get "line_end" with
          | none => simp [parseSpanOne, h1, h2, h3, h4, h5] at h
          | some leJ =>
            cases h6 : s.get "column_end" with
            | none => simp [parseSpanOne, h1, h2, h3, h4, h5, h6] at h
            | some ceJ =>
              cases h7 : s.get "is_primary" with
              | none => simp [parseSpanOne, h1, h2, h3, h4, h5, h6, h7] at h
              | some v =>
                refine ⟨v, rfl, ?_⟩
                simp [parseSpanOne, h1, h2, h3, h4, h5, h6, h7] at h
                subst h
                rfl

/-! ## Claims -/

/-- C10: verify-packages with an empty package list builds exactly the same
verifier invocation (program, arguments, environment, working directory and
stdio settings) as verify-repository, so under one and the same subprocess
world the two runner operations return equal verification reports. -/
theorem verify_packages_empty_equals_verify_repository :
    (∀ repo_path : String,
      FluxRunner.flux_command repo_path (some []) none
        = FluxRunner.flux_command repo_path none none)
    ∧ ∀ (world : Command → ProcessBehavior) (repo_path : String),
      FluxRunner.verify_package world repo_path (some [])
        = FluxRunner.verify_repository world repo_path := by
  constructor
  · intro repo_path
    rfl
  · intro world repo_path
    rfl

/-- C1: for verify-repository and verify-packages the success field of the
returned report comes only from the subprocess exit status: when the
process spawns, streams its lines without I/O error and exits with status
flag exitOk, the call returns success = exitOk together with the parsed
diagnostics exactly as parse_flux_output produced them — including when
that list is non-empty or holds error-level entries. -/
theorem verify_success_tracks_exit_status
    (world : Command → ProcessBehavior) (repo_path : String)
    (packages : List String) (exitOk : Bool) (lines : List (Option Json))
    (hrep : world (FluxRunner.flux_command repo_path none none)
      = ⟨true, true, lines.map Except.ok, Except.ok exitOk⟩)
    (hpkg : world (FluxRunner.flux_command repo_path (some packages) none)
      = ⟨true, true, lines.map Except.ok, Except.ok exitOk⟩) :
    FluxRunner.verify_repository world repo_path
      = Except.ok ⟨exitOk, FluxRunner.parse_flux_output lines⟩
    ∧ FluxRunner.verify_package world repo_path (some packages)
      = Except.ok ⟨exitOk, FluxRunner.parse_flux_output lines⟩ := by
  constructor
  · rw [FluxRunner.verify_repository, hrep, run_flux_process_all_ok]
  · rw [FluxRunner.verify_package, hpkg, run_flux_process_all_ok]

/-- C1 witness: a subprocess that exits successfully while emitting one
error-level diagnostic line yields success = true with a diagnostics list
of length 1, for both runner operations. -/
theorem verify_success_tracks_exit_status_witness :
    (FluxRunner.verify_repository oneErrorExitOkWorld "repo"
        = Except.ok ⟨true, [sampleErrorDiag]⟩
      ∧ FluxRunner.verify_package oneErrorExitOkWorld "repo" (some ["pkg"])
        = Except.ok ⟨true, [sampleErrorDiag]⟩)
    ∧ sampleErrorDiag.message.level = "error"
    ∧ [sampleErrorDiag].length = 1 := by
  refine ⟨?_, rfl, rfl⟩
  have h := verify_success_tracks_exit_status oneErrorExitOkWorld "repo" ["pkg"] true
    [some sampleErrorLine] rfl rfl
  have he : FluxRunner.parse_flux_output [some sampleErrorLine] = [sampleErrorDiag] := by
    decide
  rw [he] at h
  exact h

/-- C3: the line parsers are total Lean functions, and a line that is
unparseable JSON, or parses to an object without a reason field, or whose
reason is not the compiler-message sentinel, contributes no diagnostic and
no lemma while every other line is processed exactly as it would be
without that line. -/
theorem parser_skips_irrelevant_lines (pre suf : List (Option Json))
    (l : Option Json) (h : irrelevant_line l) :
    FluxRunner.parse_flux_output (pre ++ l :: suf)
      = FluxRunner.parse_flux_output (pre ++ suf)
    ∧ FluxRunner.parse_flux_lemmas (pre ++ l :: suf)
      = FluxRunner.parse_flux_lemmas (pre ++ suf) := by
  constructor
  · rw [parse_flux_output_append, parse_flux_output_append]
    congr 1
    simp [FluxRunner.parse_flux_output, List.filterMap_cons, parseLine_none_of_irrelevant l h]
  · rw [parse_flux_lemmas_append, parse_flux_lemmas_append]
    congr 1
    simp [FluxRunner.parse_flux_lemmas, List.filterMap_cons,
      parseLemmaLine_none_of_irrelevant l h]

/-- C3 witness: inserting an unparseable line between a diagnostic line
and the end of the stream changes neither the diagnostics nor the lemmas. -/
theorem parser_skips_irrelevant_lines_witness :
    FluxRunner.parse_flux_output ([some sampleErrorLine] ++ none :: [])
      = FluxRunner.parse_flux_output ([some sampleErrorLine] ++ [])
    ∧ FluxRunner.parse_flux_lemmas ([some sampleErrorLine] ++ none :: [])
      = FluxRunner.parse_flux_lemmas ([some sampleErrorLine] ++ []) :=
  parser_skips_irrelevant_lines [some sampleErrorLine] [] none (Or.inl rfl)

/-- C2: the syntax-error classifier returns exactly the subsequence
(order preserved, entries unchanged) of diagnostics whose level equals
"error" and whose text contains none of the 15 catalogue phrases as a
case-sensitive substring; concretely, an error-level "possible division by
zero in foo" diagnostic is excluded, an error-level "mismatched types"
diagnostic is included, and a warning-level diagnostic is always excluded. -/
theorem retain_only_syntax_errors_characterization (ds : List Diagnostic) :
    List.Sublist (retain_only_syntax_errors ds) ds
    ∧ (∀ d : Diagnostic, d ∈ retain_only_syntax_errors ds ↔
        d ∈ ds ∧ d.message.level = "error"
          ∧ ∀ m ∈ flux_error_markers, strContains d.message.message m = false)
    ∧ flux_error_markers.length = 15
    ∧ "possible division by zero" ∈ flux_error_markers
    ∧ retain_only_syntax_errors [mkDiag "error" "possible division by zero in foo"] = []
    ∧ retain_only_syntax_errors [mkDiag "error" "mismatched types"]
        = [mkDiag "error" "mismatched types"]
    ∧ ∀ msg : String, retain_only_syntax_errors [mkDiag "warning" msg] = [] := by
  refine ⟨?_, ?_, by decide, by decide, by decide, by decide, ?_⟩
  · unfold retain_only_syntax_errors
    exact List.filter_sublist _
  · intro d
    simp only [retain_only_syntax_errors, List.mem_filter, Bool.and_eq_true, beq_iff_eq,
      Bool.not_eq_true', List.any_eq_false, and_assoc, Bool.not_eq_true]
  · intro msg
    simp [retain_only_syntax_errors, mkDiag]

/-- C2 witness: the characterization applied to the singleton list with
the "mismatched types" error diagnostic. -/
theorem retain_only_syntax_errors_characterization_witness :
    List.Sublist (retain_only_syntax_errors [mkDiag "error" "mismatched types"])
      [mkDiag "error" "mismatched types"] :=
  (retain_only_syntax_errors_characterization [mkDiag "error" "mismatched types"]).1

/-- C7: a compiler-message object whose message lacks a string level field
or a string message text is excluded from the output without affecting any
other record: the stream parses to the concatenation of prefix and suffix
parses, and putting any well-formed compiler-message object in its place
grows the output by exactly one. -/
theorem missing_message_fields_drop_single_record
    (pre suf : List (Option Json)) (j m : Json)
    (hm : j.get "message" = some m)
    (hbad : (m.get "level").bind Json.asStr = none
      ∨ (m.get "message").bind Json.asStr = none) :
    FluxRunner.parse_flux_output (pre ++ some j :: suf)
      = FluxRunner.parse_flux_output pre ++ FluxRunner.parse_flux_output suf
    ∧ ∀ jn mn : Json, jn.get "message" = some mn →
        (∃ r, jn.get "reason" = some r ∧ r.asStr = some "compiler-message") →
        (parse_message mn).isSome →
        (FluxRunner.parse_flux_output (pre ++ some jn :: suf)).length
          = (FluxRunner.parse_flux_output (pre ++ some j :: suf)).length + 1 := by
  have hskip : FluxRunner.parseLine (some j) = none :=
    parseLine_none_of_bad_message j m hm (parse_message_none_of_missing m hbad)
  have hdrop : FluxRunner.parse_flux_output (pre ++ some j :: suf)
      = FluxRunner.parse_flux_output pre ++ FluxRunner.parse_flux_output suf := by
    rw [parse_flux_output_append]
    congr 1
    simp [FluxRunner.parse_flux_output, List.filterMap_cons, hskip]
  refine ⟨hdrop, ?_⟩
  intro jn mn hmn hrn hsome
  obtain ⟨dm, hdm⟩ := Option.isSome_iff_exists.mp hsome
  have hgood := parseLine_some_of_good jn mn hmn hrn dm hdm
  rw [hdrop, parse_flux_output_append]
  simp only [FluxRunner.parse_flux_output, List.filterMap_cons, hgood, hskip,
    List.length_append, List.length_cons]
  omega

/-- C7 witness: a stream holding only a level-less compiler-message object
parses to the empty list, and replacing it by a well-formed object yields
exactly one more diagnostic. -/
theorem missing_message_fields_drop_single_record_witness :
    FluxRunner.parse_flux_output ([] ++ some c7_no_level_line :: [])
      = FluxRunner.parse_flux_output [] ++ FluxRunner.parse_flux_output []
    ∧ (FluxRunner.parse_flux_output ([] ++ some sampleErrorLine :: [])).length
        = (FluxRunner.parse_flux_output ([] ++ some c7_no_level_line :: [])).length + 1 := by
  have h := missing_message_fields_drop_single_record [] [] c7_no_level_line
    c7_no_level_message rfl (Or.inl rfl)
  exact ⟨h.1, h.2 sampleErrorLine sampleErrorMessage rfl
    ⟨Json.str "compiler-message", rfl, rfl⟩ (by decide)⟩

/-- C4 counterexample: a compiler-message line with well-formed level and
text but a non-array spans value is NOT dropped — the parser keeps the
diagnostic with an empty spans list, refuting the claim that such a line
contributes no diagnostic. -/
theorem malformed_spans_line_is_kept_cex :
    (c4_message.get "spans").bind parse_spans = none
    ∧ FluxRunner.parse_flux_output [some c4_line] = [c4_diag]
    ∧ (FluxRunner.parse_flux_output [some c4_line]).length = 1 := by
  refine ⟨by decide, by decide, by decide⟩

/-- C4 (amended): a compiler-message line whose message has well-formed
level and text but a malformed spans value is kept, with its spans
defaulted to the empty list, and parsing of all other lines continues
unchanged. -/
theorem malformed_spans_yields_empty_spans
    (pre suf : List (Option Json)) (j m : Json) (lvl txt : String)
    (hr : ∃ r, j.get "reason" = some r ∧ r.asStr = some "compiler-message")
    (hm : j.get "message" = some m)
    (hspans : (m.get "spans").bind parse_spans = none)
    (hlvl : (m.get "level").bind Json.asStr = some lvl)
    (htxt : (m.get "message").bind Json.asStr = some txt) :
    FluxRunner.parse_flux_output (pre ++ some j :: suf)
      = FluxRunner.parse_flux_output pre
        ++ (⟨⟨lvl, txt, (m.get "code").bind Json.asStr,
              (m.get "rendered").bind Json.asStr, []⟩,
            (j.get "package_id").map Json.render,
            (j.get "target").bind parse_target⟩
          :: FluxRunner.parse_flux_output suf) := by
  cases hL : m.get "level" with
  | none => rw [hL] at hlvl; simp at hlvl
  | some lv =>
    rw [hL] at hlvl
    simp only [Option.some_bind] at hlvl
    cases hM : m.get "message" with
    | none => rw [hM] at htxt; simp at htxt
    | some tJ =>
      rw [hM] at htxt
      simp only [Option.some_bind] at htxt
      have hpm : parse_message m
          = some ⟨lvl, txt, (m.get "code").bind Json.asStr,
              (m.get "rendered").bind Json.asStr, []⟩ := by
        simp [parse_message, hL, hlvl, hM, htxt, hspans]
      have hline := parseLine_some_of_good j m hm hr _ hpm
      rw [parse_flux_output_append]
      congr 1
      simp [FluxRunner.parse_flux_output, List.filterMap_cons, hline]

/-- C4 witness: the amended behavior at the concrete malformed-spans line. -/
theorem malformed_spans_yields_empty_spans_witness :
    FluxRunner.parse_flux_output ([] ++ some c4_line :: [])
      = FluxRunner.parse_flux_output []
        ++ (⟨⟨"error", "mismatched types",
              (c4_message.get "code").bind Json.asStr,
              (c4_message.get "rendered").bind Json.asStr, []⟩,
            (c4_line.get "package_id").map Json.render,
            (c4_line.get "target").bind parse_target⟩
          :: FluxRunner.parse_flux_output []) :=
  malformed_spans_yields_empty_spans [] [] c4_line c4_message "error" "mismatched types"
    ⟨Json.str "compiler-message", rfl, rfl⟩ rfl rfl rfl rfl

/-- C5 counterexample: in an array pairing a span whose is_primary value
is a non-boolean with a span missing the is_primary key, the whole array
fails to parse, so the non-boolean span is NOT kept — refuting the
per-span reading of the claim. -/
theorem nonbool_is_primary_span_not_kept_cex :
    c5_span_nonbool.get "is_primary" = some (Json.str "yes")
    ∧ (Json.str "yes").asBool = none
    ∧ c5_span_missing.get "is_primary" = none
    ∧ parseSpanOne c5_span_nonbool = some ⟨"a.rs", 1, 2, 3, 4, true⟩
    ∧ parse_spans (Json.arr [c5_span_nonbool, c5_span_missing]) = none := by
  refine ⟨rfl, rfl, rfl, by decide, by decide⟩

/-- C5 (amended): a span missing the is_primary key makes the whole spans
array fail to parse (every span of that array is dropped); a span whose
is_primary is present but non-boolean parses with is_primary defaulted to
true, and every span of an array whose parse succeeds is kept in it. -/
theorem span_key_failure_drops_whole_array :
    (∀ arr : List Json, ∀ s ∈ arr, s.get "is_primary" = none →
        parse_spans (Json.arr arr) = none)
    ∧ (∀ s : Json, ∀ v : Json, s.get "is_primary" = some v → v.asBool = none →
        ∀ d : DiagnosticSpan, parseSpanOne s = some d → d.is_primary = true)
    ∧ (∀ arr : List Json, ∀ res : List DiagnosticSpan,
        parse_spans (Json.arr arr) = some res →
        ∀ s ∈ arr, ∀ d : DiagnosticSpan, parseSpanOne s = some d → d ∈ res) := by
  refine ⟨?_, ?_, ?_⟩
  · intro arr s hs hp
    have hnone : parse_spans_list arr = none :=
      parse_spans_list_none_of_mem arr s hs (parseSpanOne_none_of_no_primary s hp)
    simp [parse_spans, Json.asArray, hnone]
  · intro s v hv hb d hd
    obtain ⟨v2, hv2, hprim⟩ := parseSpanOne_is_primary s d hd
    rw [hv] at hv2
    injection hv2 with hv2
    subst hv2
    rw [hprim, hb]
    rfl
  · intro arr
    induction arr with
    | nil =>
      intro res h s hs
      cases hs
    | cons a rest ih =>
      intro res h s hs d hd
      simp only [parse_spans, Json.asArray, Option.some_bind] at h
      cases ha : parseSpanOne a with
      | none => simp [parse_spans_list, ha] at h
      | some da =>
        cases hrest : parse_spans_list rest with
        | none => simp [parse_spans_list, ha, hrest] at h
        | some ds =>
          simp [parse_spans_list, ha, hrest] at h
          subst h
          rcases List.mem_cons.mp hs with rfl | hmem
          · rw [ha] at hd
            injection hd with hd
            subst hd
            exact List.mem_cons_self _ _
          · have hps : parse_spans (Json.arr rest) = some ds := by
              simp [parse_spans, Json.asArray, hrest]
            exact List.mem_cons_of_mem _ (ih ds hps s hmem d hd)

/-- C5 witness: the amended statement at a concrete singleton array whose
only span is missing the is_primary key. -/
theorem span_key_failure_drops_whole_array_witness :
    parse_spans (Json.arr [c5_span_missing]) = none :=
  span_key_failure_drops_whole_array.1 [c5_span_missing] c5_span_missing
    (List.mem_singleton.mpr rfl) rfl

/-- C6: when the kind key of a target object exists but its value is not
an array, or some element of the array is not a string, the whole target
parse fails, and any diagnostic parsed from a line carrying such a target
ends up with an absent target field rather than a partial kind list. -/
theorem malformed_kind_drops_entire_target (t v : Json)
    (hv : t.get "kind" = some v)
    (hbad : v.asArray = none
      ∨ ∃ arr, v.asArray = some arr ∧ ∃ k ∈ arr, k.asStr = none) :
    parse_target t = none
    ∧ ∀ j : Json, j.get "target" = some t →
        ∀ d ∈ FluxRunner.parse_flux_output [some j], d.target = none := by
  have h1 : parse_target t = none := parse_target_none_of_bad_kind t v hv hbad
  refine ⟨h1, ?_⟩
  intro j hj d hd
  cases hpl : FluxRunner.parseLine (some j) with
  | none =>
    simp [FluxRunner.parse_flux_output, List.filterMap_cons, hpl] at hd
  | some d0 =>
    simp only [FluxRunner.parse_flux_output, List.filterMap_cons, hpl, List.filterMap_nil,
      List.mem_singleton] at hd
    subst hd
    have htar := parseLine_target j d hpl
    rw [hj] at htar
    simp only [Option.some_bind] at htar
    rw [htar, h1]

/-- C6 witness: the concrete line whose target has a non-array kind parses
to a diagnostic with an absent target. -/
theorem malformed_kind_drops_entire_target_witness :
    parse_target c6_target_json = none ∧ c6_diag.target = none := by
  have h := malformed_kind_drops_entire_target c6_target_json (Json.num 3) rfl (Or.inl rfl)
  exact ⟨h.1, h.2 c6_line rfl c6_diag (by decide)⟩

/-- C8: a successful get-syntax-errors call responds with the
classifier-filtered diagnostics of a verify-repository run, each rendered
as one serialized text item in their original order, followed by exactly
one summary item "Found N syntax errors" where N is the number of filtered
diagnostics, so the response has length N + 1. -/
theorem get_syntax_errors_response_shape
    (world : Command → ProcessBehavior) (repo_path : String)
    (exitOk : Bool) (ds : List Diagnostic)
    (h : FluxRunner.verify_repository world repo_path = Except.ok ⟨exitOk, ds⟩) :
    FluxMcp.get_syntax_errors world repo_path
      = Except.ok ((retain_only_syntax_errors ds).map serializeDiagnostic
          ++ ["Found " ++ toString (retain_only_syntax_errors ds).length ++ " syntax errors"])
    ∧ ∀ resp, FluxMcp.get_syntax_errors world repo_path = Except.ok resp →
        resp.length = (retain_only_syntax_errors ds).length + 1 := by
  have hmain : FluxMcp.get_syntax_errors world repo_path
      = Except.ok ((retain_only_syntax_errors ds).map serializeDiagnostic
          ++ ["Found " ++ toString (retain_only_syntax_errors ds).length
              ++ " syntax errors"]) := by
    simp [FluxMcp.get_syntax_errors, h]
  refine ⟨hmain, ?_⟩
  intro resp hresp
  rw [hmain] at hresp
  injection hresp with hresp
  subst hresp
  simp

/-- C8 witness: on a run whose single diagnostic carries a catalogue
phrase, the response is exactly the summary item "Found 0 syntax errors",
of length 0 + 1. -/
theorem get_syntax_errors_response_shape_witness :
    FluxMcp.get_syntax_errors oneErrorExitOkWorld "repo"
      = Except.ok ((retain_only_syntax_errors [sampleErrorDiag]).map serializeDiagnostic
          ++ ["Found " ++ toString (retain_only_syntax_errors [sampleErrorDiag]).length
              ++ " syntax errors"])
    ∧ (["Found 0 syntax errors"] : List String).length
        = (retain_only_syntax_errors [sampleErrorDiag]).length + 1 := by
  have h := get_syntax_errors_response_shape oneErrorExitOkWorld "repo" true
    [sampleErrorDiag] (by rfl)
  exact ⟨h.1, h.2 ["Found 0 syntax errors"] (by rfl)⟩

/-- C9: only infrastructure failures surface to the caller — if the
subprocess spawns, stdout is captured, every line read succeeds and the
wait returns, the runner returns Ok regardless of the lines' content; any
runner error implies a spawn, capture, read or wait failure; and a runner
error reaches the caller as the structured invalid-request error wrapping
the failure text. -/
theorem only_infrastructure_failures_surface
    (world : Command → ProcessBehavior) (repo_path : String) :
    ((world (FluxRunner.flux_command repo_path none none)).spawnOk = true →
      (world (FluxRunner.flux_command repo_path none none)).stdoutOk = true →
      (∀ r ∈ (world (FluxRunner.flux_command repo_path none none)).lineReads,
        ∃ l, r = Except.ok l) →
      (∃ b, (world (FluxRunner.flux_command repo_path none none)).waitResult
        = Except.ok b) →
      ∃ report, FluxRunner.verify_repository world repo_path = Except.ok report)
    ∧ (∀ e, FluxRunner.verify_repository world repo_path = Except.error e →
        ((world (FluxRunner.flux_command repo_path none none)).spawnOk = false
          ∨ (world (FluxRunner.flux_command repo_path none none)).stdoutOk = false
          ∨ (∃ msg, Except.error msg
              ∈ (world (FluxRunner.flux_command repo_path none none)).lineReads)
          ∨ ∃ msg, (world (FluxRunner.flux_command repo_path none none)).waitResult
              = Except.error msg))
    ∧ ∀ e, FluxRunner.verify_repository world repo_path = Except.error e →
        FluxMcp.verify_repository world repo_path
          = Except.error (McpError.invalidRequest ("Verification failed " ++ e)) := by
  refine ⟨?_, ?_, ?_⟩
  · intro h1 h2 h3 h4
    obtain ⟨b, hwait⟩ := h4
    obtain ⟨lines, hdrain⟩ := drainStdout_ok_of_all_ok "Failed to read output: " _ h3
    exact ⟨⟨b, FluxRunner.parse_flux_output lines⟩, by
      simp [FluxRunner.verify_repository, FluxRunner.run_flux_process, h1, h2, hdrain, hwait]⟩
  · intro e he
    by_cases h1 : (world (FluxRunner.flux_command repo_path none none)).spawnOk = false
    · exact Or.inl h1
    · by_cases h2 : (world (FluxRunner.flux_command repo_path none none)).stdoutOk = false
      · exact Or.inr (Or.inl h2)
      · cases hd : FluxRunner.drainStdout "Failed to read output: "
            (world (FluxRunner.flux_command repo_path none none)).lineReads with
        | error e2 =>
          exact Or.inr (Or.inr (Or.inl (drainStdout_error_mem _ _ _ hd)))
        | ok lines =>
          cases hw : (world (FluxRunner.flux_command repo_path none none)).waitResult with
          | error e3 => exact Or.inr (Or.inr (Or.inr ⟨e3, rfl⟩))
          | ok b =>
            exfalso
            simp [FluxRunner.verify_repository, FluxRunner.run_flux_process,
              h1, h2, hd, hw] at he
  · intro e he
    simp [FluxMcp.verify_repository, he]

/-- C9 witness: a spawn failure reaches the caller as the invalid-request
error naming the launch failure. -/
theorem only_infrastructure_failures_surface_witness :
    FluxMcp.verify_repository spawnFailWorld "repo"
      = Except.error (McpError.invalidRequest
          ("Verification failed " ++ "Failed to run Flux process")) :=
  (only_infrastructure_failures_surface spawnFailWorld "repo").2.2
    "Failed to run Flux process" rfl
